import Mathlib

/-!
Shallow embedding of the greenops self-healing agent
(`greenops-agent/self_heal.py`) and verification of its specification.

The agent keeps a bounded global event log, classifies container failure
reasons from streamed pod notifications, suggests fixes, optionally deletes
failing pods, and retries the watch stream with exponential backoff.
-/

namespace GreenOps

/-- An entry of the global `EVENTS` list: `{"time": ..., "message": ...}`. -/
structure Event where
  time : String
  message : String
deriving DecidableEq, Repr

/-- Capacity of the event log: `EVENTS_MAX = 500`. -/
def EVENTS_MAX : Nat := 500

/-- Source function `add_event(message)`: appends an entry with the current timestamp, then
caps the list to the last `EVENTS_MAX` items via
`del EVENTS[0 : len(EVENTS) - EVENTS_MAX]`.  The wall-clock string produced
by `time.strftime` is passed in as `now`. -/
def add_event (now : String) (message : String) (events : List Event) : List Event :=
  if (events ++ [Event.mk now message]).length > EVENTS_MAX then
    (events ++ [Event.mk now message]).drop
      ((events ++ [Event.mk now message]).length - EVENTS_MAX)
  else
    events ++ [Event.mk now message]

/-- Replay a sequence of `add_event` calls, each with its own timestamp. -/
def run_add_events (entries : List (String × String)) (events : List Event) : List Event :=
  entries.foldl (fun log e => add_event e.1 e.2 log) events

/-- The event an `add_event` call constructs before capping. -/
def mk_event (e : String × String) : Event := ⟨e.1, e.2⟩

/-- The last `n` elements of a list, in order. -/
def take_last (n : Nat) (l : List α) : List α := l.drop (l.length - n)

/-- The `/status` route: `jsonify(EVENTS)` returns the whole event list. -/
def status (events : List Event) : List Event := events

theorem length_take_last (n : Nat) (l : List α) :
    (take_last n l).length = min n l.length := by
  simp [take_last]
  omega

theorem take_last_suffix (n : Nat) (l : List α) : take_last n l <:+ l :=
  List.drop_suffix _ _

/-- Re-capping an already capped log before appending more entries gives the
same result as capping once at the end. -/
theorem take_last_take_last_append (n : Nat) (l es : List α) :
    take_last n (take_last n l ++ es) = take_last n (l ++ es) := by
  unfold take_last
  rw [← List.drop_append_of_le_length (Nat.sub_le _ _), List.drop_drop]
  congr 1
  simp only [List.length_drop, List.length_append]
  omega

/-- Lemma: `add_event` is exactly: append one entry, keep the last `EVENTS_MAX`. -/
theorem add_event_eq_take_last (now message : String) (events : List Event) :
    add_event now message events = take_last EVENTS_MAX (events ++ [⟨now, message⟩]) := by
  unfold add_event take_last
  split
  · rfl
  · next h =>
    rw [Nat.sub_eq_zero_of_le (by omega), List.drop_zero]

/-- Lemma: `add_event` never lets the log exceed capacity. -/
theorem add_event_length_le (now message : String) (events : List Event) :
    (add_event now message events).length ≤ EVENTS_MAX := by
  rw [add_event_eq_take_last, length_take_last]
  exact Nat.min_le_left _ _

/-- Replaying appends from a within-capacity log keeps exactly the last
`EVENTS_MAX` of the concatenated history. -/
theorem run_add_events_eq_take_last (entries : List (String × String)) (events : List Event)
    (h : events.length ≤ EVENTS_MAX) :
    run_add_events entries events = take_last EVENTS_MAX (events ++ entries.map mk_event) := by
  induction entries generalizing events with
  | nil =>
    simp only [run_add_events, List.foldl_nil, List.map_nil, List.append_nil, take_last]
    rw [Nat.sub_eq_zero_of_le h, List.drop_zero]
  | cons e es ih =>
    rw [run_add_events, List.foldl_cons]
    have step : add_event e.1 e.2 events = take_last EVENTS_MAX (events ++ [mk_event e]) :=
      add_event_eq_take_last e.1 e.2 events
    have := ih (add_event e.1 e.2 events) (add_event_length_le e.1 e.2 events)
    rw [run_add_events] at this
    rw [this, step, take_last_take_last_append, List.append_assoc]
    rfl

/-! ## Pod data model

Kubernetes objects as the agent reads them: every field access in the source
goes through `getattr(..., default)` or may legitimately be `None`, so every
field is an `Option`.  A Python string attribute is truthy iff it is neither
`None` nor the empty string. -/

/-- A `waiting` or `terminated` container state object; the agent only reads
its `reason` attribute. -/
structure StateDetail where
  reason : Option String
deriving DecidableEq, Repr

/-- The `state` object of a container status. -/
structure ContainerState where
  waiting : Option StateDetail
  terminated : Option StateDetail
deriving DecidableEq, Repr

/-- One element of `pod.status.container_statuses`. -/
structure ContainerStatus where
  state : Option ContainerState
deriving DecidableEq, Repr

/-- Model of `pod.status`; `container_statuses` may be `None`. -/
structure PodStatus where
  container_statuses : Option (List ContainerStatus)
deriving DecidableEq, Repr

/-- Model of `pod.metadata`; a missing `name` attribute is `none`. -/
structure PodMetadata where
  name : Option String
deriving DecidableEq, Repr

/-- A pod object from a stream notification.  A `none` status makes the
attribute access `pod.status.container_statuses` raise, which the classifier
catches. -/
structure Pod where
  metadata : Option PodMetadata
  status : Option PodStatus
deriving DecidableEq, Repr

/-- Python truthiness of a string-valued `reason` attribute:
`None` and `""` are falsy. -/
def truthy_reason : Option String → Bool
  | none => false
  | some r => !(r == "")

/-- The check `if <state obj> and getattr(<state obj>, "reason", None):`
applied to an optional `waiting`/`terminated` object: yields the reason that
gets appended, or `none` when the guard is falsy. -/
def wt_reason : Option StateDetail → Option String
  | none => none
  | some d => if truthy_reason d.reason then d.reason else none

/-- The `for s in statuses:` loop body of `_safe_get_container_reason`,
threading the accumulating `reasons` list exactly as the source appends to
it: skip a missing `state`, append the waiting reason if its guard holds,
otherwise append the terminated reason if its guard holds. -/
def reason_loop : List ContainerStatus → List String → List String
  | [], reasons => reasons
  | s :: rest, reasons =>
    match s.state with
    | none => reason_loop rest reasons
    | some state =>
      match wt_reason state.waiting with
      | some r => reason_loop rest (reasons ++ [r])
      | none =>
        match wt_reason state.terminated with
        | some r => reason_loop rest (reasons ++ [r])
        | none => reason_loop rest reasons

/-- Source function `_safe_get_container_reason(pod)`: returns the list of reasons observed
for containers in the pod (may be empty).  A `none` `pod.status` raises
inside the `try` before any reason is collected, so the caught exception
path returns the empty accumulator. -/
def _safe_get_container_reason (pod : Pod) : List String :=
  match pod.status with
  | none => []
  | some st => reason_loop (st.container_statuses.getD []) []

/-- Declarative per-container classification: the reason a single container
status contributes, if any (waiting takes precedence over terminated). -/
def classify_container (s : ContainerStatus) : Option String :=
  match s.state with
  | none => none
  | some state =>
    match wt_reason state.waiting with
    | some r => some r
    | none => wt_reason state.terminated

/-- The accumulator loop is append-composable. -/
theorem reason_loop_acc (statuses : List ContainerStatus) (acc : List String) :
    reason_loop statuses acc = acc ++ reason_loop statuses [] := by
  induction statuses generalizing acc with
  | nil => simp [reason_loop]
  | cons s rest ih =>
    cases hs : s.state with
    | none =>
      rw [reason_loop, reason_loop]
      simp only [hs]
      exact ih acc
    | some state =>
      cases hw : wt_reason state.waiting with
      | some r =>
        rw [reason_loop, reason_loop]
        simp only [hs, hw, List.nil_append]
        rw [ih (acc ++ [r]), ih [r]]
        simp
      | none =>
        cases ht : wt_reason state.terminated with
        | some r =>
          rw [reason_loop, reason_loop]
          simp only [hs, hw, ht, List.nil_append]
          rw [ih (acc ++ [r]), ih [r]]
          simp
        | none =>
          rw [reason_loop, reason_loop]
          simp only [hs, hw, ht]
          exact ih acc

/-- The imperative loop computes exactly the in-order per-container
classification. -/
theorem reason_loop_eq_filterMap (statuses : List ContainerStatus) :
    reason_loop statuses [] = statuses.filterMap classify_container := by
  induction statuses with
  | nil => rfl
  | cons s rest ih =>
    cases hs : s.state with
    | none => simp [reason_loop, classify_container, hs, ih]
    | some state =>
      cases hw : wt_reason state.waiting with
      | some r =>
        rw [reason_loop]
        simp only [hs, hw]
        rw [reason_loop_acc, ih]
        simp [List.filterMap_cons, classify_container, hs, hw]
      | none =>
        cases ht : wt_reason state.terminated with
        | some r =>
          rw [reason_loop]
          simp only [hs, hw, ht]
          rw [reason_loop_acc, ih]
          simp [List.filterMap_cons, classify_container, hs, hw, ht]
        | none =>
          rw [reason_loop]
          simp only [hs, hw, ht]
          rw [ih]
          simp [List.filterMap_cons, classify_container, hs, hw, ht]

/-! ## Remediation engine and watch loop -/

/-- Environment-derived configuration: `NAMESPACE`, `AUTO_APPLY`,
`USE_GEMINI`. -/
structure AgentConfig where
  namespc : String
  auto_apply : Bool
  use_gemini : Bool
deriving DecidableEq, Repr

/-- Source function `suggest_fix(pod_name, reason)`: with `USE_GEMINI` a fixed placeholder
string, otherwise the mock template.  Both branches are pure string
formatting; no external call is made. -/
def suggest_fix (use_gemini : Bool) (pod_name reason : String) : String :=
  if use_gemini then
    "Gemini suggests restarting pod " ++ pod_name ++ " due to " ++ reason ++ "."
  else
    "Mock fix: restart pod " ++ pod_name ++ " for reason " ++ reason ++ "."

/-- A `v1.delete_namespaced_pod(name=..., namespace=...)` call issued by the
watcher. -/
structure DeleteCall where
  name : String
  namespc : String
deriving DecidableEq, Repr

/-- The cluster delete API as the watcher observes it: for each pod name,
either the delete succeeds or raises an exception rendered as `e`. -/
def DeleteApi : Type := String → Except String Unit

/-- The pod name read via getattr with default unknown. -/
def pod_name_of (pod : Pod) : String :=
  ((pod.metadata.bind PodMetadata.name).getD "unknown")

/-- The `for reason in reasons:` loop of `watch_pods`, accumulating the
messages passed to `add_event` and the delete calls issued, in order.  A
non-actionable reason takes the implicit else-branch: nothing happens. -/
def remediate_loop (cfg : AgentConfig) (api : DeleteApi) (pod_name : String) :
    List String → List String × List DeleteCall → List String × List DeleteCall
  | [], acc => acc
  | reason :: rest, acc =>
    if reason ∈ ["CrashLoopBackOff", "OOMKilled"] then
      let fix := suggest_fix cfg.use_gemini pod_name reason
      let msgs1 := acc.1 ++
        ["Detected crash: " ++ pod_name ++ ", reason: " ++ reason ++ ", suggestion: " ++ fix]
      if cfg.auto_apply then
        match api pod_name with
        | Except.ok _ =>
          remediate_loop cfg api pod_name rest
            (msgs1 ++ ["Applied fix: deleted pod " ++ pod_name],
             acc.2 ++ [DeleteCall.mk pod_name cfg.namespc])
        | Except.error e =>
          remediate_loop cfg api pod_name rest
            (msgs1 ++ ["Error applying fix: " ++ e],
             acc.2 ++ [DeleteCall.mk pod_name cfg.namespc])
      else
        remediate_loop cfg api pod_name rest (msgs1, acc.2)
    else
      remediate_loop cfg api pod_name rest acc

/-- Processing of one streamed notification body (the object field of the streamed change dict):
a missing pod object is skipped; otherwise its reasons are classified and
remediated.  Returns the `add_event` messages and delete calls, in order. -/
def process_notification (cfg : AgentConfig) (api : DeleteApi) :
    Option Pod → List String × List DeleteCall
  | none => ([], [])
  | some pod =>
    remediate_loop cfg api (pod_name_of pod) (_safe_get_container_reason pod) ([], [])

/-- Processing of the notifications delivered by one `w.stream(...)`
iteration, concatenating per-notification effects in order. -/
def process_items (cfg : AgentConfig) (api : DeleteApi) :
    List (Option Pod) → List String × List DeleteCall
  | [] => ([], [])
  | it :: rest =>
    let r := process_notification cfg api it
    let rs := process_items cfg api rest
    (r.1 ++ rs.1, r.2 ++ rs.2)

/-- One pass of the `while True:` body: the notifications successfully
delivered before the stream iteration either ends normally (`error = none`,
e.g. the 60-second timeout elapsed) or raises (`error = some e`). -/
structure StreamAttempt where
  items : List (Option Pod)
  error : Option String
deriving DecidableEq, Repr

/-- Observable state of the watcher: `add_event` messages so far, delete
calls issued, the durations of the `time.sleep(backoff_seconds)` calls, and
the current `backoff_seconds`. -/
structure LoopState where
  msgs : List String
  dels : List DeleteCall
  sleeps : List Nat
  backoff : Nat
deriving DecidableEq, Repr

/-- One iteration of the `while True:` loop.  On normal stream exit
`backoff_seconds = 1`; on an exception the error event is logged, the
watcher sleeps the current backoff, then doubles it capped at 60. -/
def process_attempt (cfg : AgentConfig) (api : DeleteApi) (st : LoopState)
    (a : StreamAttempt) : LoopState :=
  let r := process_items cfg api a.items
  match a.error with
  | none =>
    LoopState.mk (st.msgs ++ r.1) (st.dels ++ r.2) st.sleeps 1
  | some e =>
    LoopState.mk (st.msgs ++ r.1 ++ ["Watch stream error: " ++ e]) (st.dels ++ r.2)
      (st.sleeps ++ [st.backoff]) (min (st.backoff * 2) 60)

/-- The `while True:` loop run over a finite trace of stream attempts. -/
def watch_loop (cfg : AgentConfig) (api : DeleteApi) (st : LoopState) :
    List StreamAttempt → LoopState
  | [] => st
  | a :: rest => watch_loop cfg api (process_attempt cfg api st a) rest

/-- Watcher state right after `add_event("Starting pod watcher...")` and
`backoff_seconds = 1`. -/
def watch_init : LoopState := LoopState.mk ["Starting pod watcher..."] [] [] 1

/-- Outcome of the initial configuration load: in-cluster succeeded, the
local kubeconfig fallback succeeded, or both raised (the second exception
rendered as the payload). -/
inductive KubeConfigResult where
  | incluster
  | localConfig
  | failure (e : String)
deriving DecidableEq, Repr

/-- Source function `watch_pods()` over a finite trace: on a double configuration failure it
logs the failure event and returns before subscribing; otherwise it logs the
start event and enters the stream loop.  The boolean records whether the
streaming loop was entered. -/
def watch_pods (cfg : AgentConfig) (api : DeleteApi) (kube : KubeConfigResult)
    (attempts : List StreamAttempt) : LoopState × Bool :=
  match kube with
  | KubeConfigResult.failure e =>
    (LoopState.mk ["Failed to load any kube config: " ++ e] [] [] 1, false)
  | _ => (watch_loop cfg api watch_init attempts, true)

/-- The concrete event log built from the `add_event` calls of the watcher, the
`i`-th call stamped with `clock i`. -/
def log_of (clock : Nat → String) (msgs : List String) : List Event :=
  run_add_events (msgs.enum.map (fun p => (clock p.1, p.2))) []

/-! ## Concrete fixtures -/

/-- Default configuration: `NAMESPACE="boutique"`, `AUTO_APPLY=false`,
`USE_GEMINI=false`. -/
def cfg_noapply : AgentConfig := AgentConfig.mk "boutique" false false

/-- Configuration with `AUTO_APPLY=true`. -/
def cfg_apply : AgentConfig := AgentConfig.mk "boutique" true false

/-- A delete API whose calls all succeed. -/
def api_ok : DeleteApi := fun _ => Except.ok ()

/-- A delete API whose calls all raise a permission error. -/
def api_err : DeleteApi := fun _ => Except.error "forbidden"

/-- A pod object with no readable metadata or status. -/
def pod_empty : Pod := Pod.mk none none

/-- A pod named `name` with one container waiting in `CrashLoopBackOff`. -/
def crash_pod (name : String) : Pod :=
  Pod.mk (some (PodMetadata.mk (some name)))
    (some (PodStatus.mk (some [ContainerStatus.mk (some (ContainerState.mk
      (some (StateDetail.mk (some "CrashLoopBackOff"))) none))])))

/-- A pod named `p2` with one container waiting in `ImagePullBackOff`,
a classified but non-actionable reason. -/
def pod_info : Pod :=
  Pod.mk (some (PodMetadata.mk (some "p2")))
    (some (PodStatus.mk (some [ContainerStatus.mk (some (ContainerState.mk
      (some (StateDetail.mk (some "ImagePullBackOff"))) none))])))

/-- A pod named `p3` with two containers: the first waiting in
`ImagePullBackOff` (non-actionable), the second waiting in
`CrashLoopBackOff` (actionable) — a mixed notification. -/
def pod_mixed : Pod :=
  Pod.mk (some (PodMetadata.mk (some "p3")))
    (some (PodStatus.mk (some
      [ContainerStatus.mk (some (ContainerState.mk
        (some (StateDetail.mk (some "ImagePullBackOff"))) none)),
       ContainerStatus.mk (some (ContainerState.mk
        (some (StateDetail.mk (some "CrashLoopBackOff"))) none))])))

/-- A stream attempt that raises before delivering any notification. -/
def attempt_err : StreamAttempt := StreamAttempt.mk [] (some "boom1")

/-- A stream attempt that delivers one notification successfully and then
raises. -/
def attempt_notif_err : StreamAttempt := StreamAttempt.mk [some pod_empty] (some "boom2")

/-- A stream attempt that ends normally (e.g. the 60-second timeout). -/
def attempt_ok : StreamAttempt := StreamAttempt.mk [] none

/-! ## Helper lemmas -/

/-- The container statuses the classifier iterates over. -/
def containers_of (pod : Pod) : List ContainerStatus :=
  match pod.status with
  | none => []
  | some st => st.container_statuses.getD []

/-- Lemma: `(s ++ t).data` unfolds to the concatenation of the character lists. -/
theorem str_data_append (s t : String) : (s ++ t).data = s.data ++ t.data := rfl

/-- A remediation pass over reasons none of which is actionable leaves the
accumulator untouched. -/
theorem remediate_loop_skip (cfg : AgentConfig) (api : DeleteApi) (pod_name : String)
    (reasons : List String) (acc : List String × List DeleteCall)
    (h : ∀ r ∈ reasons, r ∉ ["CrashLoopBackOff", "OOMKilled"]) :
    remediate_loop cfg api pod_name reasons acc = acc := by
  induction reasons generalizing acc with
  | nil => rfl
  | cons r rest ih =>
    rw [remediate_loop]
    have hr : r ∉ ["CrashLoopBackOff", "OOMKilled"] := h r (List.mem_cons_self r rest)
    simp only [hr, if_false]
    exact ih acc (fun x hx => h x (List.mem_cons_of_mem r hx))

/-- Skipping one non-actionable reason at the head of the remediation loop
changes nothing, whatever reasons follow it. -/
theorem remediate_loop_skip_head (cfg : AgentConfig) (api : DeleteApi) (pod_name : String)
    (r : String) (reasons : List String) (acc : List String × List DeleteCall)
    (hr : r ∉ ["CrashLoopBackOff", "OOMKilled"]) :
    remediate_loop cfg api pod_name (r :: reasons) acc =
      remediate_loop cfg api pod_name reasons acc := by
  rw [remediate_loop]
  simp only [hr, if_false]

/-- The remediation loop only sees the actionable reasons: discarding the
non-actionable ones first gives the same events and the same delete calls,
even when actionable and non-actionable reasons are mixed. -/
theorem remediate_loop_filter_actionable (cfg : AgentConfig) (api : DeleteApi)
    (pod_name : String) (reasons : List String) (acc : List String × List DeleteCall) :
    remediate_loop cfg api pod_name reasons acc =
      remediate_loop cfg api pod_name
        (reasons.filter (fun r => decide (r ∈ ["CrashLoopBackOff", "OOMKilled"]))) acc := by
  induction reasons generalizing acc with
  | nil => rfl
  | cons r rest ih =>
    by_cases hr : r ∈ ["CrashLoopBackOff", "OOMKilled"]
    · rw [List.filter_cons_of_pos (by simpa using hr), remediate_loop, remediate_loop,
        if_pos hr, if_pos hr]
      cases hb : cfg.auto_apply with
      | false => exact ih _
      | true =>
        cases hapi : api pod_name with
        | ok u => exact ih _
        | error e => exact ih _
    · rw [List.filter_cons_of_neg (by simpa using hr), remediate_loop, if_neg hr]
      exact ih acc

/-- Backoff and every recorded sleep stay in `[1, 60]` along any run whose
start state satisfies the invariant. -/
theorem watch_loop_backoff_bounds (cfg : AgentConfig) (api : DeleteApi)
    (trace : List StreamAttempt) (st : LoopState)
    (hb1 : 1 ≤ st.backoff) (hb2 : st.backoff ≤ 60)
    (hs : ∀ x ∈ st.sleeps, 1 ≤ x ∧ x ≤ 60) :
    (1 ≤ (watch_loop cfg api st trace).backoff ∧
      (watch_loop cfg api st trace).backoff ≤ 60) ∧
    ∀ x ∈ (watch_loop cfg api st trace).sleeps, 1 ≤ x ∧ x ≤ 60 := by
  induction trace generalizing st with
  | nil => exact ⟨⟨hb1, hb2⟩, hs⟩
  | cons a rest ih =>
    rw [watch_loop]
    cases he : a.error with
    | none =>
      apply ih
      · simp [process_attempt, he]
      · simp [process_attempt, he]
      · intro x hx
        apply hs
        simpa [process_attempt, he] using hx
    | some e =>
      apply ih
      · simp only [process_attempt, he]
        omega
      · simp only [process_attempt, he]
        omega
      · intro x hx
        simp only [process_attempt, he, List.mem_append, List.mem_singleton] at hx
        rcases hx with hx | rfl
        · exact hs x hx
        · exact ⟨hb1, hb2⟩

/-! ## Claims -/

/-- Claim C1: for every sequence of `add_event` calls, the event log never
exceeds `EVENTS_MAX` entries, and after the sequence the retained entries
are exactly the most recent `min(n, EVENTS_MAX)` appended entries, in their
original insertion order (oldest evicted first, as a suffix of the full
append history). -/
theorem C1_event_log_fifo (entries : List (String × String)) :
    (∀ k, (run_add_events (entries.take k) []).length ≤ EVENTS_MAX) ∧
    run_add_events entries [] = take_last EVENTS_MAX (entries.map mk_event) ∧
    (run_add_events entries []).length = min entries.length EVENTS_MAX ∧
    run_add_events entries [] <:+ entries.map mk_event := by
  have key : ∀ l : List (String × String),
      run_add_events l [] = take_last EVENTS_MAX (l.map mk_event) := by
    intro l
    have := run_add_events_eq_take_last l [] (by simp)
    simpa using this
  refine ⟨?_, key entries, ?_, ?_⟩
  · intro k
    rw [key (entries.take k), length_take_last]
    exact Nat.min_le_left _ _
  · rw [key entries, length_take_last]
    simp [Nat.min_comm]
  · rw [key entries]
    exact take_last_suffix _ _

/-- Claim C2 counterexample: `backoff_seconds` is NOT reset on a
successfully received notification.  After one stream error the backoff is
2; a second attempt then successfully delivers a notification before
failing, yet the observed sleep is 2, not the 1 the claim predicts.  The
reset happens only when a stream attempt ends without error. -/
theorem C2_backoff_reset_counterexample :
    (process_attempt cfg_noapply api_ok watch_init attempt_err).backoff = 2 ∧
    process_items cfg_noapply api_ok [some pod_empty] = ([], []) ∧
    (watch_loop cfg_noapply api_ok watch_init [attempt_err, attempt_notif_err]).sleeps
      = [1, 2] :=
  ⟨rfl, rfl, rfl⟩

/-- Claim C2 (amended): in the watch loop, `backoff_seconds` and every
observed sleep stay in `[1, 60]`; the backoff is reset to 1 when a stream
attempt completes without raising (not on individual notifications), and on
each stream failure the watcher sleeps the current backoff and then doubles
it, capped at 60; three consecutive stream errors yield observed sleeps
`1, 2, 4`, and a subsequent attempt that completes normally resets the
backoff to 1. -/
theorem C2_backoff_amended (cfg : AgentConfig) (api : DeleteApi) :
    (∀ trace : List StreamAttempt,
      (1 ≤ (watch_loop cfg api watch_init trace).backoff ∧
        (watch_loop cfg api watch_init trace).backoff ≤ 60) ∧
      ∀ x ∈ (watch_loop cfg api watch_init trace).sleeps, 1 ≤ x ∧ x ≤ 60) ∧
    (∀ (st : LoopState) (a : StreamAttempt), a.error = none →
      (process_attempt cfg api st a).backoff = 1) ∧
    (∀ (st : LoopState) (a : StreamAttempt) (e : String), a.error = some e →
      (process_attempt cfg api st a).sleeps = st.sleeps ++ [st.backoff] ∧
      (process_attempt cfg api st a).backoff = min (st.backoff * 2) 60) ∧
    (watch_loop cfg api watch_init [attempt_err, attempt_err, attempt_err]).sleeps
      = [1, 2, 4] ∧
    (watch_loop cfg api watch_init
      [attempt_err, attempt_err, attempt_err, attempt_ok]).backoff = 1 := by
  refine ⟨?_, ?_, ?_, rfl, rfl⟩
  · intro trace
    exact watch_loop_backoff_bounds cfg api trace watch_init (by decide) (by decide)
      (by intro x hx; simp [watch_init] at hx)
  · intro st a he
    simp [process_attempt, he]
  · intro st a e he
    simp [process_attempt, he]

/-- Claim C2 witness: a normally completed stream attempt resets the
backoff to 1 from the initial state. -/
theorem C2_backoff_amended_witness :
    (process_attempt cfg_noapply api_ok watch_init attempt_ok).backoff = 1 :=
  (C2_backoff_amended cfg_noapply api_ok).2.1 watch_init attempt_ok rfl

/-- Claim C3: the classifier is pure and total (a Lean function; the
`except` path of the source is unreachable for well-typed access and the
`none` status case returns the empty accumulator): its output is the
in-order per-container classification, so its length never exceeds the
number of container statuses; a pod without a readable status yields `[]`,
an absent `state` contributes nothing, and absent or unnamed
waiting/terminated states contribute nothing. -/
theorem C3_classifier_total (pod : Pod) :
    _safe_get_container_reason pod = (containers_of pod).filterMap classify_container ∧
    (_safe_get_container_reason pod).length ≤ (containers_of pod).length ∧
    (∀ md, _safe_get_container_reason (Pod.mk md none) = []) ∧
    classify_container (ContainerStatus.mk none) = none ∧
    wt_reason none = none ∧
    (∀ d : StateDetail, d.reason = none → wt_reason (some d) = none) ∧
    wt_reason (some (StateDetail.mk (some ""))) = none := by
  have heq : _safe_get_container_reason pod =
      (containers_of pod).filterMap classify_container := by
    unfold _safe_get_container_reason containers_of
    cases pod.status with
    | none => rfl
    | some st => exact reason_loop_eq_filterMap _
  refine ⟨heq, ?_, fun md => rfl, rfl, rfl, ?_, rfl⟩
  · rw [heq]
    exact List.length_filterMap_le _ _
  · intro d hd
    simp [wt_reason, truthy_reason, hd]

/-- Claim C3 witness: the classifier of a one-container pod whose state
carries no named reason returns the empty list. -/
theorem C3_classifier_total_witness :
    _safe_get_container_reason pod_empty = [] ∧
    wt_reason (some (StateDetail.mk none)) = none :=
  ⟨((C3_classifier_total pod_empty).1.trans (by rfl)),
    (C3_classifier_total pod_empty).2.2.2.2.2.1 (StateDetail.mk none) rfl⟩

/-- Claim C4 counterexample: a classified non-actionable reason is NOT
recorded to the event log.  A pod with one container waiting in
`ImagePullBackOff` is classified, yet processing the notification appends
no event at all (and issues no delete), with or without auto-apply — so
such reasons are silently ignored, not "recorded as informational". -/
theorem C4_informational_counterexample :
    _safe_get_container_reason pod_info = ["ImagePullBackOff"] ∧
    process_notification cfg_noapply api_ok (some pod_info) = ([], []) ∧
    process_notification cfg_apply api_err (some pod_info) = ([], []) :=
  ⟨rfl, rfl, rfl⟩

/-- Claim C4 (amended): exactly the reasons `CrashLoopBackOff` and
`OOMKilled` are actionable; each classified reason outside this set is
silently ignored — it triggers no suggestion, no event-log entry (not even
an informational one) and no delete call — even when actionable reasons
co-occur in the same notification: dropping a non-actionable reason changes
nothing, processing any notification equals processing only its actionable
reasons, and a notification with only non-actionable reasons produces
nothing at all. -/
theorem C4_nonactionable_ignored (cfg : AgentConfig) (api : DeleteApi) (pod : Pod) :
    (∀ (name r : String) (reasons : List String) (acc : List String × List DeleteCall),
      r ∉ ["CrashLoopBackOff", "OOMKilled"] →
      remediate_loop cfg api name (r :: reasons) acc =
        remediate_loop cfg api name reasons acc) ∧
    process_notification cfg api (some pod) =
      remediate_loop cfg api (pod_name_of pod)
        ((_safe_get_container_reason pod).filter
          (fun r => decide (r ∈ ["CrashLoopBackOff", "OOMKilled"]))) ([], []) ∧
    ((∀ r ∈ _safe_get_container_reason pod, r ∉ ["CrashLoopBackOff", "OOMKilled"]) →
      process_notification cfg api (some pod) = ([], [])) := by
  refine ⟨?_, ?_, ?_⟩
  · intro name r reasons acc hr
    exact remediate_loop_skip_head cfg api name r reasons acc hr
  · show remediate_loop cfg api (pod_name_of pod)
        (_safe_get_container_reason pod) ([], []) = _
    exact remediate_loop_filter_actionable cfg api (pod_name_of pod) _ ([], [])
  · intro h
    show remediate_loop cfg api (pod_name_of pod)
        (_safe_get_container_reason pod) ([], []) = ([], [])
    exact remediate_loop_skip cfg api (pod_name_of pod) _ ([], []) h

/-- Claim C4 witness: on the mixed notification (`ImagePullBackOff` then
`CrashLoopBackOff`) the non-actionable head is dropped and processing
equals processing the actionable reasons alone; the purely informational
`ImagePullBackOff` pod produces no events and no delete calls. -/
theorem C4_nonactionable_ignored_witness :
    remediate_loop cfg_noapply api_ok "p3"
        ("ImagePullBackOff" :: ["CrashLoopBackOff"]) ([], []) =
      remediate_loop cfg_noapply api_ok "p3" ["CrashLoopBackOff"] ([], []) ∧
    process_notification cfg_noapply api_ok (some pod_mixed) =
      remediate_loop cfg_noapply api_ok (pod_name_of pod_mixed)
        ((_safe_get_container_reason pod_mixed).filter
          (fun r => decide (r ∈ ["CrashLoopBackOff", "OOMKilled"]))) ([], []) ∧
    process_notification cfg_noapply api_ok (some pod_info) = ([], []) :=
  ⟨(C4_nonactionable_ignored cfg_noapply api_ok pod_mixed).1 "p3" "ImagePullBackOff"
      ["CrashLoopBackOff"] ([], []) (by decide),
   (C4_nonactionable_ignored cfg_noapply api_ok pod_mixed).2.1,
   (C4_nonactionable_ignored cfg_noapply api_ok pod_info).2.2 (by decide)⟩

/-- Claim C5: a notification for pod `p1` with one container waiting in
`CrashLoopBackOff`, processed with auto-apply off, appends exactly one
event, whose message contains both `p1` and `CrashLoopBackOff`, and issues
no delete call — for any delete API, which is never consulted. -/
theorem C5_crashloop_event_no_delete (api : DeleteApi) :
    process_notification cfg_noapply api (some (crash_pod "p1")) =
      (["Detected crash: p1, reason: CrashLoopBackOff, suggestion: Mock fix: restart pod p1 for reason CrashLoopBackOff."],
       []) ∧
    "p1".data <:+:
      ("Detected crash: p1, reason: CrashLoopBackOff, suggestion: Mock fix: restart pod p1 for reason CrashLoopBackOff.").data ∧
    "CrashLoopBackOff".data <:+:
      ("Detected crash: p1, reason: CrashLoopBackOff, suggestion: Mock fix: restart pod p1 for reason CrashLoopBackOff.").data :=
  ⟨rfl, by decide, by decide⟩

/-- Claim C6: with auto-apply on and a delete API that raises, the error is
caught: processing the notification appends the detection event followed by
exactly one event describing the apply failure, attempts the delete exactly
once (no retry), and the loop goes on to process any subsequent
notifications of the stream. -/
theorem C6_apply_failure_handled (cfg : AgentConfig) (api : DeleteApi) (e name : String)
    (hauto : cfg.auto_apply = true) (hapi : api name = Except.error e)
    (rest : List (Option Pod)) :
    process_notification cfg api (some (crash_pod name)) =
      (["Detected crash: " ++ name ++ ", reason: " ++ "CrashLoopBackOff" ++
          ", suggestion: " ++ suggest_fix cfg.use_gemini name "CrashLoopBackOff",
        "Error applying fix: " ++ e],
       [DeleteCall.mk name cfg.namespc]) ∧
    process_items cfg api (some (crash_pod name) :: rest) =
      (["Detected crash: " ++ name ++ ", reason: " ++ "CrashLoopBackOff" ++
          ", suggestion: " ++ suggest_fix cfg.use_gemini name "CrashLoopBackOff",
        "Error applying fix: " ++ e] ++ (process_items cfg api rest).1,
       [DeleteCall.mk name cfg.namespc] ++ (process_items cfg api rest).2) := by
  have hreasons : _safe_get_container_reason (crash_pod name) = ["CrashLoopBackOff"] := rfl
  have hname : pod_name_of (crash_pod name) = name := rfl
  have h1 : process_notification cfg api (some (crash_pod name)) =
      (["Detected crash: " ++ name ++ ", reason: " ++ "CrashLoopBackOff" ++
          ", suggestion: " ++ suggest_fix cfg.use_gemini name "CrashLoopBackOff",
        "Error applying fix: " ++ e],
       [DeleteCall.mk name cfg.namespc]) := by
    show remediate_loop cfg api (pod_name_of (crash_pod name))
        (_safe_get_container_reason (crash_pod name)) ([], []) = _
    rw [hreasons, hname, remediate_loop]
    simp only [List.mem_cons, List.mem_singleton, if_true, hauto, hapi]
    rw [remediate_loop]
    simp
  refine ⟨h1, ?_⟩
  show (let r := process_notification cfg api (some (crash_pod name));
        let rs := process_items cfg api rest;
        (r.1 ++ rs.1, r.2 ++ rs.2)) = _
  rw [h1]

/-- Claim C6 witness: a permission-denied delete on pod `p1` is caught and
recorded, with exactly one delete attempt. -/
theorem C6_apply_failure_handled_witness :
    process_notification cfg_apply api_err (some (crash_pod "p1")) =
      (["Detected crash: " ++ "p1" ++ ", reason: " ++ "CrashLoopBackOff" ++
          ", suggestion: " ++ suggest_fix cfg_apply.use_gemini "p1" "CrashLoopBackOff",
        "Error applying fix: " ++ "forbidden"],
       [DeleteCall.mk "p1" cfg_apply.namespc]) :=
  (C6_apply_failure_handled cfg_apply api_err "forbidden" "p1" rfl rfl []).1

/-- Claim C7: when both configuration loads fail, `watch_pods` appends
exactly one event describing the failure and returns without entering the
streaming loop (the result ignores any would-be stream attempts and records
that the loop was not entered); the status route stays available and serves
the log containing exactly that event. -/
theorem C7_config_failure_fatal_path (cfg : AgentConfig) (api : DeleteApi) (e : String)
    (attempts : List StreamAttempt) (clock : Nat → String) :
    watch_pods cfg api (KubeConfigResult.failure e) attempts =
      (LoopState.mk ["Failed to load any kube config: " ++ e] [] [] 1, false) ∧
    status (log_of clock
        (watch_pods cfg api (KubeConfigResult.failure e) attempts).1.msgs) =
      [Event.mk (clock 0) ("Failed to load any kube config: " ++ e)] := by
  refine ⟨rfl, ?_⟩
  show status (log_of clock ["Failed to load any kube config: " ++ e]) = _
  simp [log_of, run_add_events, add_event, EVENTS_MAX, status, mk_event]

/-- Claim C9 counterexample: the deterministic suggestion is NOT the
template `restart pod <podName> due to <reason>`; with generated
suggestions off the engine returns the mock template
`Mock fix: restart pod <podName> for reason <reason>.` instead. -/
theorem C9_suggest_template_counterexample :
    suggest_fix false "p1" "CrashLoopBackOff" ≠
      "restart pod p1 due to CrashLoopBackOff" ∧
    suggest_fix false "p1" "CrashLoopBackOff" =
      "Mock fix: restart pod p1 for reason CrashLoopBackOff." :=
  ⟨by decide, rfl⟩

/-- Claim C9 (amended): `suggest_fix` is total and deterministic for every
pod name and reason — it never raises: with generated suggestions off it
returns the mock template, and with them on it returns a fixed placeholder
string without any external call, so no failure or fallback path exists;
both outputs contain the pod name and the reason. -/
theorem C9_suggest_total (g : Bool) (p r : String) :
    suggest_fix false p r =
      "Mock fix: restart pod " ++ p ++ " for reason " ++ r ++ "." ∧
    suggest_fix true p r =
      "Gemini suggests restarting pod " ++ p ++ " due to " ++ r ++ "." ∧
    p.data <:+: (suggest_fix g p r).data ∧
    r.data <:+: (suggest_fix g p r).data := by
  refine ⟨rfl, rfl, ?_, ?_⟩
  · cases g with
    | false =>
      exact ⟨"Mock fix: restart pod ".data,
        (" for reason " ++ r ++ ".").data,
        by simp [suggest_fix, str_data_append, List.append_assoc]⟩
    | true =>
      exact ⟨"Gemini suggests restarting pod ".data,
        (" due to " ++ r ++ ".").data,
        by simp [suggest_fix, str_data_append, List.append_assoc]⟩
  · cases g with
    | false =>
      exact ⟨("Mock fix: restart pod " ++ p ++ " for reason ").data,
        ".".data,
        by simp [suggest_fix, str_data_append, List.append_assoc]⟩
    | true =>
      exact ⟨("Gemini suggests restarting pod " ++ p ++ " due to ").data,
        ".".data,
        by simp [suggest_fix, str_data_append, List.append_assoc]⟩

/-- Claim C10: when a container status carries both a waiting state and a
terminated state with named reasons simultaneously, only the waiting reason
is reported; the terminated reason is never included for that container. -/
theorem C10_waiting_shadows_terminated (w t : String) (hw : w ≠ "") :
    classify_container (ContainerStatus.mk (some (ContainerState.mk
      (some (StateDetail.mk (some w))) (some (StateDetail.mk (some t)))))) = some w ∧
    ∀ md, _safe_get_container_reason (Pod.mk md (some (PodStatus.mk (some
      [ContainerStatus.mk (some (ContainerState.mk (some (StateDetail.mk (some w)))
        (some (StateDetail.mk (some t)))))])))) = [w] := by
  have hcls : classify_container (ContainerStatus.mk (some (ContainerState.mk
      (some (StateDetail.mk (some w))) (some (StateDetail.mk (some t)))))) = some w := by
    simp [classify_container, wt_reason, truthy_reason, hw]
  refine ⟨hcls, fun md => ?_⟩
  unfold _safe_get_container_reason
  simp only [Option.getD_some]
  rw [reason_loop_eq_filterMap, List.filterMap_cons, hcls]
  rfl

/-- Claim C10 witness: with waiting `CrashLoopBackOff` and terminated
`OOMKilled` populated simultaneously, only `CrashLoopBackOff` is reported. -/
theorem C10_waiting_shadows_terminated_witness :
    classify_container (ContainerStatus.mk (some (ContainerState.mk
      (some (StateDetail.mk (some "CrashLoopBackOff")))
      (some (StateDetail.mk (some "OOMKilled")))))) = some "CrashLoopBackOff" :=
  (C10_waiting_shadows_terminated "CrashLoopBackOff" "OOMKilled" (by decide)).1

end GreenOps
